import Mathlib

/-!
Verification of the granabox_backend recurring-item subsystem.

This file shallowly embeds the recurrence / due-status core of the
repository (src/api/utils/time_utils.py, src/api/routes/recurrence_routes.py,
src/api/routes/label_routes.py) and proves the spec's claims about it.

Modelling conventions:
* Calendar dates (`datetime.date`) are `PDate` records (year, month 1..12,
  day 1..31); date order is chronological order, i.e. lexicographic on
  (year, month, day).
* Instants (`datetime` values) are counted in whole minutes; a timezone is
  its fixed UTC offset in minutes (pytz DST transitions are outside the
  claims, which only speak of "the calendar day in that timezone").
* `dateutil.relativedelta(months=k)` is `addMonths`, which clamps the
  day-of-month to the length of the target month.
* The SQLAlchemy store is a `List Item` / `List Label`; a route handler is a
  pure function from the committed store (plus request data) to the new
  committed store and a response.  `db.session.commit()` corresponds to
  returning the new list; an error return before commit leaves the list
  unchanged.
* Python truthiness of form values: an absent or empty form field is
  `none`; `Option (Option α)` is used where a present-but-unparseable value
  takes its own error path.
-/

/-- A Python `datetime.date`: calendar date with month in 1..12. -/
structure PDate where
  year : Int
  month : Int
  day : Int
deriving DecidableEq, Repr

/-- Gregorian leap-year test (as used by `calendar`/`dateutil`). -/
def isLeapYear (y : Int) : Bool :=
  y % 4 == 0 && (y % 100 != 0 || y % 400 == 0)

/-- Number of days in a month of a given year. -/
def daysInMonth (y m : Int) : Int :=
  if m == 2 then (if isLeapYear y then 29 else 28)
  else if m == 4 || m == 6 || m == 9 || m == 11 then 30
  else 31

/-- `d + relativedelta(months=k)`: month addition with day-of-month
clamping, the semantics of `dateutil.relativedelta` used by the routes. -/
def addMonths (d : PDate) (k : Int) : PDate :=
  let t := d.year * 12 + (d.month - 1) + k
  let y := t / 12
  let m := t % 12 + 1
  { year := y, month := m, day := min d.day (daysInMonth y m) }

/-- Chronological order on dates (`date <= date` in Python / SQL):
lexicographic on (year, month, day). -/
def PDate.ble (a b : PDate) : Bool :=
  a.year < b.year ||
    (a.year == b.year &&
      (a.month < b.month || (a.month == b.month && a.day ≤ b.day)))

/-- Strict chronological order on dates. -/
def PDate.blt (a b : PDate) : Bool := !(PDate.ble b a)

theorem PDate.ble_iff (a b : PDate) :
    PDate.ble a b = true ↔
      (a.year < b.year ∨ (a.year = b.year ∧
        (a.month < b.month ∨ (a.month = b.month ∧ a.day ≤ b.day)))) := by
  simp [PDate.ble]

theorem PDate.blt_iff (a b : PDate) :
    PDate.blt a b = true ↔
      (a.year < b.year ∨ (a.year = b.year ∧
        (a.month < b.month ∨ (a.month = b.month ∧ a.day < b.day)))) := by
  simp only [PDate.blt, Bool.not_eq_true', PDate.ble]
  simp only [Bool.or_eq_false_iff, Bool.and_eq_false_imp, decide_eq_false_iff_not,
    beq_iff_eq, decide_eq_true_eq, Bool.or_eq_true, Bool.and_eq_true]
  omega

/-- Days since 1970-01-01 of a calendar date (civil-from-days inverse);
used to turn a date into the UTC-midnight instant `datetime.combine(d,
time.min, tzinfo=UTC)` and to measure day differences between dates. -/
def dateToDays (d : PDate) : Int :=
  let y := if d.month ≤ 2 then d.year - 1 else d.year
  let era := y / 400
  let yoe := y - era * 400
  let mp := (d.month + 9) % 12
  let doy := (153 * mp + 2) / 5 + d.day - 1
  let doe := yoe * 365 + yoe / 4 - yoe / 100 + doy
  era * 146097 + doe - 719468

/-- `calculate_due_status` of src/api/utils/time_utils.py.

Arguments: the due date (a `datetime.date`, as the routes always pass),
the observer timezone as its UTC offset in minutes, the current instant
`datetime.now(UTC)` in minutes since the epoch, and the item type.
The date is normalised to midnight UTC, converted to the user timezone
and truncated to a calendar day; "today" is the current instant converted
to the user timezone and truncated to a calendar day; the returned label
depends on the whole-day difference. -/
def calculate_due_status (due_date : PDate) (tzOffset nowMin : Int)
    (item_type : String) : String :=
  if item_type = "income" ∨ item_type = "Rendimentos" then ""
  else if item_type = "paid-expenses" ∨ item_type = "Pago" then "PAGO"
  else
    let dueLocalDay := (dateToDays due_date * 1440 + tzOffset) / 1440
    let today := (nowMin + tzOffset) / 1440
    let days_difference := dueLocalDay - today
    if days_difference < 0 then "VENCIDO"
    else if days_difference = 0 then "VENCE HOJE"
    else if days_difference = 1 then "VENCE AMANHÃ"
    else if days_difference ≤ 3 then
      "A VENCER EM " ++ toString days_difference ++ " DIAS"
    else "A PAGAR"

/-- The whole-day difference between the due date's calendar day in the
observer timezone and today's calendar day in the observer timezone. -/
def dayDelta (due_date : PDate) (tzOffset nowMin : Int) : Int :=
  (dateToDays due_date * 1440 + tzOffset) / 1440 - (nowMin + tzOffset) / 1440

/-- The spec's due-status table, written from the spec's words.  The spec's
English labels name the source's strings: OVERDUE = "VENCIDO",
DUE TODAY = "VENCE HOJE", DUE TOMORROW = "VENCE AMANHÃ",
DUE IN n DAYS = "A VENCER EM n DIAS", PAYABLE = "A PAGAR". -/
def specDueLabel (delta : Int) : String :=
  if delta < 0 then "VENCIDO"
  else if delta = 0 then "VENCE HOJE"
  else if delta = 1 then "VENCE AMANHÃ"
  else if delta = 2 ∨ delta = 3 then "A VENCER EM " ++ toString delta ++ " DIAS"
  else "A PAGAR"

/-- C1: for every due date, observer timezone and current instant, a
payable item kind (neither income nor paid) gets the label determined
solely by the whole-day calendar difference `delta` between the due date
in that timezone and today in that timezone, following the spec's table
(delta < 0 OVERDUE, 0 DUE TODAY, 1 DUE TOMORROW, 2-3 DUE IN delta DAYS,
> 3 PAYABLE, in the source's strings); income kinds always get the empty
status and paid kinds always get the fixed label "PAGO" (PAID). -/
theorem calculate_due_status_matches_spec
    (due_date : PDate) (tzOffset nowMin : Int) (item_type : String) :
    (item_type ≠ "income" → item_type ≠ "Rendimentos" →
      item_type ≠ "paid-expenses" → item_type ≠ "Pago" →
      calculate_due_status due_date tzOffset nowMin item_type =
        specDueLabel (dayDelta due_date tzOffset nowMin)) ∧
    (item_type = "income" ∨ item_type = "Rendimentos" →
      calculate_due_status due_date tzOffset nowMin item_type = "") ∧
    (item_type = "paid-expenses" ∨ item_type = "Pago" →
      calculate_due_status due_date tzOffset nowMin item_type = "PAGO") := by
  refine ⟨fun h1 h2 h3 h4 => ?_, fun h => ?_, fun h => ?_⟩
  · simp only [calculate_due_status, specDueLabel, dayDelta]
    rw [if_neg (by tauto), if_neg (by tauto)]
    set delta := (dateToDays due_date * 1440 + tzOffset) / 1440 -
      (nowMin + tzOffset) / 1440 with hdelta
    by_cases hlt : delta < 0
    · simp [hlt]
    · by_cases h0 : delta = 0
      · simp [h0]
      · by_cases hone : delta = 1
        · simp [hone, hlt]
        · by_cases h3' : delta ≤ 3
          · have : delta = 2 ∨ delta = 3 := by omega
            simp only [if_neg hlt, if_neg h0, if_neg hone, if_pos h3', if_pos this]
          · simp only [if_neg hlt, if_neg h0, if_neg hone, if_neg h3',
              if_neg (by omega : ¬(delta = 2 ∨ delta = 3))]
  · simp only [calculate_due_status, if_pos h]
  · have hni : ¬(item_type = "income" ∨ item_type = "Rendimentos") := by
      rcases h with h | h <;> simp [h]
    simp only [calculate_due_status, if_neg hni, if_pos h]

/-- Concrete instantiation of C1: a payable, an income and a paid kind at
an explicit date, timezone offset and instant. -/
theorem calculate_due_status_matches_spec_witness :
    calculate_due_status ⟨2024, 1, 31⟩ (-180) 1000000 "A Pagar" =
      specDueLabel (dayDelta ⟨2024, 1, 31⟩ (-180) 1000000) ∧
    calculate_due_status ⟨2024, 1, 31⟩ (-180) 1000000 "Rendimentos" = "" ∧
    calculate_due_status ⟨2024, 1, 31⟩ (-180) 1000000 "Pago" = "PAGO" :=
  ⟨(calculate_due_status_matches_spec ⟨2024, 1, 31⟩ (-180) 1000000 "A Pagar").1
      (by decide) (by decide) (by decide) (by decide),
   (calculate_due_status_matches_spec ⟨2024, 1, 31⟩ (-180) 1000000
      "Rendimentos").2.1 (Or.inr rfl),
   (calculate_due_status_matches_spec ⟨2024, 1, 31⟩ (-180) 1000000
      "Pago").2.2 (Or.inr rfl)⟩

/-- The Item model of src/api/models/item.py (store-relevant columns;
the label relationship is carried by label_id). -/
structure Item where
  id : Int
  recurrence_id : Option String
  recurrence : String
  months : Option Int
  type : String
  description : String
  amount : Rat
  due_date : PDate
  due_status : String
  transaction_date : Int
  label_id : Option Int
deriving DecidableEq, Repr

/-- The Label model of src/api/models/label.py. -/
structure Label where
  id : Int
  name : String
  is_default : Bool
deriving DecidableEq, Repr

/-- An HTTP response of the item routes: a 201 creation payload, a 200
message or item list, an error payload (loc, msg, type_, HTTP status) as
built by the jsonify error returns, or an unhandled exception (HTTP 500). -/
inductive Resp where
  | created (items : List Item)
  | okMsg (msg : String)
  | okItems (items : List Item)
  | err (loc msg ty : String) (status : Nat)
  | serverError
deriving DecidableEq, Repr

/-- Python truthiness of an optional string form value. -/
def truthyStr (s : Option String) : Bool :=
  match s with
  | none => false
  | some s => s != ""

/-- Python truthiness of an optional integer attribute. -/
def truthyIntOpt (x : Option Int) : Bool :=
  match x with
  | none => false
  | some n => n != 0

/-- get_user_timezone of src/api/utils/time_utils.py.  The pytz database
is a partial map from timezone names to fixed UTC offsets in minutes
(`none` models pytz raising UnknownTimeZoneError).  A missing TimeZone
header defaults to "UTC"; a lookup failure falls back to timezone("UTC"). -/
def get_user_timezone (tzdb : String → Option Int) (header : Option String) :
    Option Int :=
  match tzdb (header.getD "UTC") with
  | some t => some t
  | none => tzdb "UTC"

/-- The items built by the creation loop of add_recurring_item
(src/api/routes/recurrence_routes.py lines 181-208): for i counting down
from months_to_create to 1 (item index j = months_to_create - i), the due
date is start_date + j months, the months field is i, the due status is
the calculator output for that date, and ids are store-assigned in
creation order starting from nextId. -/
def recurringItems (start_date : PDate) (months_to_create : Int)
    (ty descr : String) (amount : Rat) (lid : Int) (rid : String)
    (nextId : Int) (tzOffset nowMin : Int) : List Item :=
  (List.range months_to_create.toNat).map (fun (j : Nat) =>
    let next_due_date := addMonths start_date (j : Int)
    { id := nextId + (j : Int), recurrence_id := some rid,
      recurrence := "Mensal", months := some (months_to_create - (j : Int)),
      type := ty, description := descr, amount := amount,
      due_date := next_due_date,
      due_status := calculate_due_status next_due_date tzOffset nowMin ty,
      transaction_date := nowMin, label_id := some lid })

/-- add_recurring_item of src/api/routes/recurrence_routes.py.

Form fields are `none` when absent or empty (falsy in the required-params
check).  amount is `some none` when present but non-numeric (float() then
raises inside the creation loop); due_date is `some none` when present but
not YYYY-MM-DD; months is `none` when absent or empty (int(None) / int("")
raise) and `some none` when present but non-numeric (int raises).  An
unhandled exception is `Resp.serverError` and commits nothing. -/
def add_recurring_item (db : List Item) (labels : List Label)
    (label_id_p : Option Int) (type_p descr_p : Option String)
    (amount_p : Option (Option Rat)) (due_date_p : Option (Option PDate))
    (months_p : Option (Option Int)) (rid : String) (nextId : Int)
    (tzdb : String → Option Int) (header : Option String) (nowMin : Int) :
    List Item × Resp :=
  match label_id_p with
  | none => (db, .err "label_id" "Missing required parameter: label_id"
      "validation_error" 400)
  | some lid =>
  match type_p with
  | none => (db, .err "type" "Missing required parameter: type"
      "validation_error" 400)
  | some ty =>
  match descr_p with
  | none => (db, .err "description" "Missing required parameter: description"
      "validation_error" 400)
  | some descr =>
  match amount_p with
  | none => (db, .err "amount" "Missing required parameter: amount"
      "validation_error" 400)
  | some amount_v =>
  match due_date_p with
  | none => (db, .err "due_date" "Missing required parameter: due_date"
      "validation_error" 400)
  | some due_date_v =>
  match labels.find? (fun l => l.id == lid) with
  | none => (db, .err "label_id" "Label not found." "not_found_error" 404)
  | some _ =>
  match due_date_v with
  | none => (db, .err "due_date" "Invalid date format. Expected YYYY-MM-DD."
      "validation_error" 400)
  | some start_date =>
  match months_p with
  | none => (db, .serverError)
  | some none => (db, .serverError)
  | some (some m) =>
  let months_to_create : Int := if m = 0 then 12 else m
  match get_user_timezone tzdb header with
  | none => (db, .err "TimeZone" "Invalid time zone" "validation_error" 400)
  | some tzOffset =>
  match amount_v with
  | none =>
      if months_to_create.toNat = 0 then (db, .created [])
      else (db, .serverError)
  | some amount =>
      let items := recurringItems start_date months_to_create ty descr amount
        lid rid nextId tzOffset nowMin
      (db ++ items, .created items)

/-- get_recurring_items_by_recurrence_id of
src/api/routes/recurrence_routes.py: filter the store by recurrence_id
(store order); 404 when nothing matches.  Read-only, so only the response
is returned; the per-item timezone rendering of transaction_date is
display formatting and does not change the stored items. -/
def get_recurring_items_by_recurrence_id (db : List Item)
    (rid_q : Option String) : Resp :=
  let recurring_items := db.filter (fun it => it.recurrence_id == rid_q)
  if recurring_items.isEmpty then
    .err "recurrence_id" "No items found for this recurrence series."
      "not_found_error" 404
  else .okItems recurring_items

theorem recurringItems_length (start_date : PDate) (months_to_create : Int)
    (ty descr : String) (amount : Rat) (lid : Int) (rid : String)
    (nextId : Int) (tzOffset nowMin : Int) :
    (recurringItems start_date months_to_create ty descr amount lid rid
      nextId tzOffset nowMin).length = months_to_create.toNat := by
  unfold recurringItems
  rw [List.length_map, List.length_range]

theorem recurringItems_get (start_date : PDate) (months_to_create : Int)
    (ty descr : String) (amount : Rat) (lid : Int) (rid : String)
    (nextId : Int) (tzOffset nowMin : Int) (j : Nat)
    (hj : j < (recurringItems start_date months_to_create ty descr amount lid
      rid nextId tzOffset nowMin).length) :
    (recurringItems start_date months_to_create ty descr amount lid rid
        nextId tzOffset nowMin).get ⟨j, hj⟩ =
      { id := nextId + (j : Int), recurrence_id := some rid,
        recurrence := "Mensal",
        months := some (months_to_create - (j : Int)),
        type := ty, description := descr, amount := amount,
        due_date := addMonths start_date (j : Int),
        due_status := calculate_due_status (addMonths start_date (j : Int))
          tzOffset nowMin ty,
        transaction_date := nowMin, label_id := some lid } := by
  simp only [recurringItems, List.get_eq_getElem, List.getElem_map,
    List.getElem_range]

theorem add_recurring_item_eq (db : List Item) (labels : List Label)
    (lbl : Label) (lid : Int) (ty descr : String) (amount : Rat) (s : PDate)
    (N : Int) (rid : String) (nextId : Int) (tzdb : String → Option Int)
    (header : Option String) (nowMin tzOffset : Int)
    (hlb : labels.find? (fun l => l.id == lid) = some lbl)
    (htz : get_user_timezone tzdb header = some tzOffset)
    (hN : 1 ≤ N) :
    add_recurring_item db labels (some lid) (some ty) (some descr)
        (some (some amount)) (some (some s)) (some (some N)) rid nextId tzdb
        header nowMin =
      (db ++ recurringItems s N ty descr amount lid rid nextId tzOffset nowMin,
        .created (recurringItems s N ty descr amount lid rid nextId tzOffset
          nowMin)) := by
  unfold add_recurring_item
  simp only [hlb, htz, if_neg (show ¬(N = 0) by omega)]

/-- C2: a valid create-recurring request with occurrence count N >= 1,
start date s and a fresh series identifier creates exactly N items in one
commit (the new store is the old store with the N items appended), and
the j-th created item (j = 0 .. N-1, i.e. loop counter i = N - j counting
down from N to 1) has due date s + j calendar months (month-end clamped by
addMonths), months field (sequenceRemaining) N - j, due status equal to
the Due-Status Calculator output for that date, timezone and kind,
recorded instant (transaction_date) equal to the current UTC instant, and
the shared new series id. -/
theorem add_recurring_item_creates_series (db : List Item)
    (labels : List Label) (lbl : Label) (lid : Int) (ty descr : String)
    (amount : Rat) (s : PDate) (N : Int) (rid : String) (nextId : Int)
    (tzdb : String → Option Int) (header : Option String)
    (nowMin tzOffset : Int)
    (hlb : labels.find? (fun l => l.id == lid) = some lbl)
    (htz : get_user_timezone tzdb header = some tzOffset)
    (hN : 1 ≤ N) :
    ∃ items : List Item,
      add_recurring_item db labels (some lid) (some ty) (some descr)
          (some (some amount)) (some (some s)) (some (some N)) rid nextId
          tzdb header nowMin = (db ++ items, .created items) ∧
      items.length = N.toNat ∧
      ∀ j (hj : j < items.length),
        items.get ⟨j, hj⟩ =
          { id := nextId + (j : Int), recurrence_id := some rid,
            recurrence := "Mensal", months := some (N - (j : Int)),
            type := ty, description := descr, amount := amount,
            due_date := addMonths s (j : Int),
            due_status := calculate_due_status (addMonths s (j : Int))
              tzOffset nowMin ty,
            transaction_date := nowMin, label_id := some lid } := by
  refine ⟨recurringItems s N ty descr amount lid rid nextId tzOffset nowMin,
    add_recurring_item_eq db labels lbl lid ty descr amount s N rid nextId
      tzdb header nowMin tzOffset hlb htz hN,
    recurringItems_length s N ty descr amount lid rid nextId tzOffset nowMin,
    fun j hj => recurringItems_get s N ty descr amount lid rid nextId
      tzOffset nowMin j hj⟩

/-- Concrete instantiation of C2 at the spec's example: N = 12 starting
2024-01-31, plus the leap/clamp check that the first three generated due
dates are 2024-01-31, 2024-02-29 and 2024-03-31. -/
theorem add_recurring_item_creates_series_witness :
    (∃ items : List Item,
      add_recurring_item [] [⟨1, "Casa", false⟩] (some 1) (some "A Pagar")
          (some "Aluguel") (some (some 1500)) (some (some ⟨2024, 1, 31⟩))
          (some (some 12)) "rid-1" 1
          (fun s => if s = "UTC" then some 0 else none) none 0 =
        ([] ++ items, .created items) ∧
      items.length = (12 : Int).toNat ∧
      ∀ j (hj : j < items.length),
        items.get ⟨j, hj⟩ =
          { id := 1 + (j : Int), recurrence_id := some "rid-1",
            recurrence := "Mensal", months := some (12 - (j : Int)),
            type := "A Pagar", description := "Aluguel", amount := 1500,
            due_date := addMonths ⟨2024, 1, 31⟩ (j : Int),
            due_status := calculate_due_status (addMonths ⟨2024, 1, 31⟩
              (j : Int)) 0 0 "A Pagar",
            transaction_date := 0, label_id := some 1 }) ∧
    [addMonths ⟨2024, 1, 31⟩ 0, addMonths ⟨2024, 1, 31⟩ 1,
        addMonths ⟨2024, 1, 31⟩ 2] =
      [⟨2024, 1, 31⟩, ⟨2024, 2, 29⟩, ⟨2024, 3, 31⟩] :=
  ⟨add_recurring_item_creates_series [] [⟨1, "Casa", false⟩] ⟨1, "Casa", false⟩
      1 "A Pagar" "Aluguel" 1500 ⟨2024, 1, 31⟩ 12 "rid-1" 1
      (fun s => if s = "UTC" then some 0 else none) none 0 0
      (by decide) (by decide) (by decide),
    by decide⟩

theorem addMonths_blt_succ (s : PDate) (j : Int) :
    PDate.blt (addMonths s j) (addMonths s (j + 1)) = true := by
  rw [PDate.blt_iff]
  simp only [addMonths]
  omega

theorem recurringItems_rid (start_date : PDate) (months_to_create : Int)
    (ty descr : String) (amount : Rat) (lid : Int) (rid : String)
    (nextId : Int) (tzOffset nowMin : Int) :
    ∀ it ∈ recurringItems start_date months_to_create ty descr amount lid rid
      nextId tzOffset nowMin, it.recurrence_id = some rid := by
  intro it hit
  simp only [recurringItems, List.mem_map, List.mem_range] at hit
  obtain ⟨j, _, rfl⟩ := hit
  rfl

/-- C6: creating a recurring series with N >= 1 occurrences under a fresh
series id and then immediately querying by that series id returns exactly
the N created items, whose due dates are the monthly sequence
start + 0, start + 1, ..., start + (N-1) calendar months and are strictly
ascending. -/
theorem create_then_query_returns_series (db : List Item)
    (labels : List Label) (lbl : Label) (lid : Int) (ty descr : String)
    (amount : Rat) (s : PDate) (N : Int) (rid : String) (nextId : Int)
    (tzdb : String → Option Int) (header : Option String)
    (nowMin tzOffset : Int)
    (hlb : labels.find? (fun l => l.id == lid) = some lbl)
    (htz : get_user_timezone tzdb header = some tzOffset)
    (hN : 1 ≤ N)
    (hfresh : ∀ it ∈ db, it.recurrence_id ≠ some rid) :
    ∃ items : List Item,
      add_recurring_item db labels (some lid) (some ty) (some descr)
          (some (some amount)) (some (some s)) (some (some N)) rid nextId
          tzdb header nowMin = (db ++ items, .created items) ∧
      get_recurring_items_by_recurrence_id (db ++ items) (some rid) =
        .okItems items ∧
      items.length = N.toNat ∧
      (∀ j (hj : j < items.length),
        (items.get ⟨j, hj⟩).due_date = addMonths s (j : Int)) ∧
      (∀ j (hj : j + 1 < items.length),
        PDate.blt (items.get ⟨j, Nat.lt_of_succ_lt hj⟩).due_date
          (items.get ⟨j + 1, hj⟩).due_date = true) := by
  refine ⟨recurringItems s N ty descr amount lid rid nextId tzOffset nowMin,
    add_recurring_item_eq db labels lbl lid ty descr amount s N rid nextId
      tzdb header nowMin tzOffset hlb htz hN, ?_, ?_, ?_, ?_⟩
  · have hlen := recurringItems_length s N ty descr amount lid rid nextId
      tzOffset nowMin
    have hdb : db.filter (fun it => it.recurrence_id == some rid) = [] := by
      rw [List.filter_eq_nil_iff]
      intro it hit
      simpa using hfresh it hit
    have hitems : (recurringItems s N ty descr amount lid rid nextId tzOffset
        nowMin).filter (fun it => it.recurrence_id == some rid) =
        recurringItems s N ty descr amount lid rid nextId tzOffset nowMin := by
      rw [List.filter_eq_self]
      intro it hit
      simpa using recurringItems_rid s N ty descr amount lid rid nextId
        tzOffset nowMin it hit
    unfold get_recurring_items_by_recurrence_id
    rw [List.filter_append, hdb, hitems, List.nil_append]
    have hne : ¬(recurringItems s N ty descr amount lid rid nextId tzOffset
        nowMin).isEmpty = true := by
      rw [List.isEmpty_iff]
      intro h
      rw [h] at hlen
      simp at hlen
      omega
    rw [if_neg hne]
  · exact recurringItems_length s N ty descr amount lid rid nextId tzOffset
      nowMin
  · intro j hj
    rw [recurringItems_get s N ty descr amount lid rid nextId tzOffset nowMin
      j hj]
  · intro j hj
    rw [recurringItems_get s N ty descr amount lid rid nextId tzOffset nowMin
      j (Nat.lt_of_succ_lt hj),
      recurringItems_get s N ty descr amount lid rid nextId tzOffset nowMin
      (j + 1) hj]
    have : ((j + 1 : Nat) : Int) = (j : Int) + 1 := by push_cast; ring
    rw [this]
    exact addMonths_blt_succ s (j : Int)

/-- Concrete instantiation of C6: a fresh series of 3 items created in an
empty store and queried back. -/
theorem create_then_query_returns_series_witness :
    ∃ items : List Item,
      add_recurring_item [] [⟨1, "Casa", false⟩] (some 1) (some "A Pagar")
          (some "Aluguel") (some (some 1500)) (some (some ⟨2024, 1, 31⟩))
          (some (some 3)) "rid-1" 1
          (fun s => if s = "UTC" then some 0 else none) none 0 =
        ([] ++ items, .created items) ∧
      get_recurring_items_by_recurrence_id ([] ++ items) (some "rid-1") =
        .okItems items ∧
      items.length = (3 : Int).toNat ∧
      (∀ j (hj : j < items.length),
        (items.get ⟨j, hj⟩).due_date = addMonths ⟨2024, 1, 31⟩ (j : Int)) ∧
      (∀ j (hj : j + 1 < items.length),
        PDate.blt (items.get ⟨j, Nat.lt_of_succ_lt hj⟩).due_date
          (items.get ⟨j + 1, hj⟩).due_date = true) :=
  create_then_query_returns_series [] [⟨1, "Casa", false⟩] ⟨1, "Casa", false⟩
    1 "A Pagar" "Aluguel" 1500 ⟨2024, 1, 31⟩ 3 "rid-1" 1
    (fun s => if s = "UTC" then some 0 else none) none 0 0
    (by decide) (by decide) (by decide) (by simp)

/-- C7: the occurrence-count default.  The source line
months_to_create = int(form.get("months")) or 12 treats a caller-supplied
"0" as falsy and substitutes the default 12 (second conjunct), but when
the months field is unspecified int(None) raises TypeError before any
item is created, so the request fails with an unhandled 500 and the
store is unchanged (first conjunct) instead of using the documented
default of 12; this contradicts the schema's own documentation
("default is 12") and the claim's "unspecified ... uses the default". -/
theorem add_recurring_item_months_default_bug :
    add_recurring_item [] [⟨1, "Casa", false⟩] (some 1) (some "A Pagar")
        (some "Aluguel") (some (some 1500)) (some (some ⟨2024, 1, 31⟩))
        none "rid-1" 1 (fun s => if s = "UTC" then some 0 else none) none 0 =
      ([], .serverError) ∧
    ∃ items : List Item,
      add_recurring_item [] [⟨1, "Casa", false⟩] (some 1) (some "A Pagar")
          (some "Aluguel") (some (some 1500)) (some (some ⟨2024, 1, 31⟩))
          (some (some 0)) "rid-1" 1
          (fun s => if s = "UTC" then some 0 else none) none 0 =
        ([] ++ items, .created items) ∧
      items.length = 12 := by
  refine ⟨by decide, recurringItems ⟨2024, 1, 31⟩ 12 "A Pagar" "Aluguel" 1500
    1 "rid-1" 1 0 0, ?_, by decide⟩
  decide

/-- Resolution of the optional label_id form field of the edit route
(src/api/routes/recurrence_routes.py lines 376-390): absent/empty means no
override (`some none`); a supplied id that does not resolve is a 404
(`none`); a resolved id overrides the anchor's label. -/
def resolveLabel (labels : List Label) (label_id_p : Option Int) :
    Option (Option Int) :=
  match label_id_p with
  | none => some none
  | some lid =>
    match labels.find? (fun l => l.id == lid) with
    | none => none
    | some _ => some (some lid)

/-- Parsing of the optional due_date form field (lines 393-409): absent
or empty keeps the anchor's current due date; present but malformed is an
error (`none`). -/
def parseDue (due_date_p : Option (Option PDate)) (orig : PDate) :
    Option PDate :=
  match due_date_p with
  | none => some orig
  | some none => none
  | some (some d) => some d

/-- Parsing of the optional amount form field (lines 418-431): absent or
empty means no override (`some none`); present but non-numeric is an
error (`none`). -/
def parseAmount (amount_p : Option (Option Rat)) : Option (Option Rat) :=
  match amount_p with
  | none => some none
  | some none => none
  | some (some a) => some (some a)

/-- A truthy optional string form value overrides the current value
(lines 412-416 pattern: `if form.get(...)`). -/
def applyStrOverride (v : Option String) (cur : String) : String :=
  match v with
  | some s => if s != "" then s else cur
  | none => cur

/-- The anchor item after the edit route applied the provided overrides
to it (lines 390-451): label, type, description, amount if truthy, and
the refreshed transaction_date.  Its due_date is not yet changed at this
point; the future-items query still compares against the original one. -/
def editAnchor (item0 : Item) (lblOverride : Option Int)
    (type_p descr_p : Option String) (amountOverride : Option Rat)
    (nowMin : Int) : Item :=
  { item0 with
    label_id := match lblOverride with
      | some lid => some lid
      | none => item0.label_id,
    type := applyStrOverride type_p item0.type,
    description := applyStrOverride descr_p item0.description,
    amount := match amountOverride with
      | some a => a
      | none => item0.amount,
    transaction_date := nowMin }

/-- The loop body applied to each future item (lines 459-475): propagate
the anchor's truthy label/type/description/amount, then recompute the due
date as new anchor due date + (future id - anchor id) months, recompute
the due status from that date and the (possibly propagated) type, and
refresh the transaction_date. -/
def updFuture (anchor : Item) (item_id : Int) (new_due_date : PDate)
    (tzOffset nowMin : Int) (future_item : Item) : Item :=
  let f1 := if truthyIntOpt anchor.label_id then
    { future_item with label_id := anchor.label_id } else future_item
  let f2 := if anchor.type != "" then { f1 with type := anchor.type } else f1
  let f3 := if anchor.description != "" then
    { f2 with description := anchor.description } else f2
  let f4 := if anchor.amount != 0 then { f3 with amount := anchor.amount }
    else f3
  let d := addMonths new_due_date (future_item.id - item_id)
  { f4 with
    due_date := d,
    due_status := calculate_due_status d tzOffset nowMin f4.type,
    transaction_date := nowMin }

/-- edit_recurring_items of src/api/routes/recurrence_routes.py.

The anchor item is resolved by id; an anchor without recurrence_id is
rejected; overrides are applied to the anchor; then every item of the
same series whose due_date is >= the anchor's original due_date
(the anchor included) is rewritten by updFuture, and everything is
committed at once.  An error return leaves the store unchanged (the
session is never committed on those paths). -/
def edit_recurring_items (db : List Item) (labels : List Label)
    (item_id : Int) (label_id_p : Option Int) (type_p descr_p : Option String)
    (amount_p : Option (Option Rat)) (due_date_p : Option (Option PDate))
    (tzdb : String → Option Int) (header : Option String) (nowMin : Int) :
    List Item × Resp :=
  match db.find? (fun it => it.id == item_id) with
  | none => (db, .err "id" "Item not found." "not_found_error" 404)
  | some item0 =>
  match item0.recurrence_id with
  | none => (db, .err "id" "This item is not part of a recurring series."
      "validation_error" 400)
  | some rid =>
  match resolveLabel labels label_id_p with
  | none => (db, .err "label_id" "Label not found." "not_found_error" 404)
  | some lblOverride =>
  match parseDue due_date_p item0.due_date with
  | none => (db, .err "due_date" "Invalid date format. Expected YYYY-MM-DD."
      "validation_error" 400)
  | some new_due_date =>
  match parseAmount amount_p with
  | none => (db, .err "amount" "Invalid amount. Must be a number."
      "validation_error" 400)
  | some amountOverride =>
  match get_user_timezone tzdb header with
  | none => (db, .err "TimeZone" "Invalid time zone" "validation_error" 400)
  | some tzOffset =>
  let anchor1 := editAnchor item0 lblOverride type_p descr_p amountOverride
    nowMin
  let db' := db.map (fun it =>
    if it.id == item_id then
      updFuture anchor1 item_id new_due_date tzOffset nowMin anchor1
    else if it.recurrence_id == some rid &&
        PDate.ble item0.due_date it.due_date then
      updFuture anchor1 item_id new_due_date tzOffset nowMin it
    else it)
  (db', .okMsg "Recurring items updated successfully")

theorem PDate.ble_refl (a : PDate) : PDate.ble a a = true := by
  simp [PDate.ble]

theorem updFuture_eq (anchor : Item) (item_id : Int) (new_due_date : PDate)
    (tzOffset nowMin : Int) (it : Item)
    (hlid : truthyIntOpt anchor.label_id = true)
    (hty : anchor.type ≠ "")
    (hdesc : anchor.description ≠ "")
    (hamt : anchor.amount ≠ 0) :
    updFuture anchor item_id new_due_date tzOffset nowMin it =
      { it with
        label_id := anchor.label_id, type := anchor.type,
        description := anchor.description, amount := anchor.amount,
        due_date := addMonths new_due_date (it.id - item_id),
        due_status := calculate_due_status
          (addMonths new_due_date (it.id - item_id)) tzOffset nowMin
          anchor.type,
        transaction_date := nowMin } := by
  simp only [updFuture, hlid, if_true, bne_iff_ne, ne_eq, hty,
    not_false_eq_true, if_pos, hdesc, hamt]

/-- The success path of the edit route, characterised: the new store is
the old store with exactly the same-series items whose due date is on or
after the anchor's original due date (the anchor included) rewritten, each
receiving the anchor's possibly-overridden label, type, description and
amount, the due date new anchor due + (id - anchor id) months, the
recomputed due status, and the refreshed transaction instant; every other
item is untouched. -/
theorem edit_success_eq (db : List Item) (labels : List Label)
    (item_id : Int) (label_id_p : Option Int) (type_p descr_p : Option String)
    (amount_p : Option (Option Rat)) (due_date_p : Option (Option PDate))
    (tzdb : String → Option Int) (header : Option String) (nowMin : Int)
    (item0 : Item) (rid : String) (lblOverride : Option Int)
    (new_due_date : PDate) (amountOverride : Option Rat) (tzOffset : Int)
    (hfind : db.find? (fun it => it.id == item_id) = some item0)
    (hrid : item0.recurrence_id = some rid)
    (hlbl : resolveLabel labels label_id_p = some lblOverride)
    (hdue : parseDue due_date_p item0.due_date = some new_due_date)
    (ham : parseAmount amount_p = some amountOverride)
    (htz : get_user_timezone tzdb header = some tzOffset)
    (hnodup : (db.map Item.id).Nodup)
    (hlid : truthyIntOpt (editAnchor item0 lblOverride type_p descr_p
      amountOverride nowMin).label_id = true)
    (hty : (editAnchor item0 lblOverride type_p descr_p amountOverride
      nowMin).type ≠ "")
    (hdesc : (editAnchor item0 lblOverride type_p descr_p amountOverride
      nowMin).description ≠ "")
    (hamt : (editAnchor item0 lblOverride type_p descr_p amountOverride
      nowMin).amount ≠ 0) :
    edit_recurring_items db labels item_id label_id_p type_p descr_p amount_p
        due_date_p tzdb header nowMin =
      (db.map (fun it =>
        if it.recurrence_id == some rid &&
            PDate.ble item0.due_date it.due_date then
          { it with
            label_id := (editAnchor item0 lblOverride type_p descr_p
              amountOverride nowMin).label_id,
            type := (editAnchor item0 lblOverride type_p descr_p
              amountOverride nowMin).type,
            description := (editAnchor item0 lblOverride type_p descr_p
              amountOverride nowMin).description,
            amount := (editAnchor item0 lblOverride type_p descr_p
              amountOverride nowMin).amount,
            due_date := addMonths new_due_date (it.id - item_id),
            due_status := calculate_due_status
              (addMonths new_due_date (it.id - item_id)) tzOffset nowMin
              (editAnchor item0 lblOverride type_p descr_p amountOverride
                nowMin).type,
            transaction_date := nowMin }
        else it),
       .okMsg "Recurring items updated successfully") := by
  have hmem : item0 ∈ db := List.mem_of_find?_eq_some hfind
  have hid : item0.id = item_id := by
    have := List.find?_some hfind
    simpa using this
  unfold edit_recurring_items
  simp only [hfind, hrid, hlbl, hdue, ham, htz]
  congr 1
  refine List.map_congr_left ?_
  intro it hit
  by_cases hcase : it.id == item_id
  · have hit0 : it = item0 := by
      refine List.inj_on_of_nodup_map hnodup hit hmem ?_
      rw [hid]
      exact beq_iff_eq.mp hcase
    subst hit0
    rw [if_pos hcase,
      updFuture_eq _ _ _ _ _ _ hlid hty hdesc hamt,
      if_pos (by rw [hrid, PDate.ble_refl]; simp)]
    simp [editAnchor]
  · rw [if_neg (by simpa using hcase)]
    by_cases hcond : (it.recurrence_id == some rid &&
        PDate.ble item0.due_date it.due_date) = true
    · rw [if_pos hcond, if_pos hcond,
        updFuture_eq _ _ _ _ _ _ hlid hty hdesc hamt]
    · rw [if_neg hcond, if_neg hcond]

/-- C3: editing an item that belongs to a series modifies exactly the
same-series items whose due date is >= the anchor's original due date
(the anchor included): each receives the anchor's possibly-overridden
label, kind, description and amount, a new due date equal to the new
anchor due date plus (item id - anchor id) calendar months, and a due
status recomputed from that new date, the request timezone and the item's
kind; every other stored item is untouched.  The truthiness hypotheses
are the data-model invariants (non-empty kind and description, positive
amount, mandatory label) instantiated at the overridden anchor. -/
theorem edit_updates_exactly_future_items (db : List Item)
    (labels : List Label) (item_id : Int) (label_id_p : Option Int)
    (type_p descr_p : Option String) (amount_p : Option (Option Rat))
    (due_date_p : Option (Option PDate)) (tzdb : String → Option Int)
    (header : Option String) (nowMin : Int) (item0 : Item) (rid : String)
    (lblOverride : Option Int) (new_due_date : PDate)
    (amountOverride : Option Rat) (tzOffset : Int)
    (hfind : db.find? (fun it => it.id == item_id) = some item0)
    (hrid : item0.recurrence_id = some rid)
    (hlbl : resolveLabel labels label_id_p = some lblOverride)
    (hdue : parseDue due_date_p item0.due_date = some new_due_date)
    (ham : parseAmount amount_p = some amountOverride)
    (htz : get_user_timezone tzdb header = some tzOffset)
    (hnodup : (db.map Item.id).Nodup)
    (hlid : truthyIntOpt (editAnchor item0 lblOverride type_p descr_p
      amountOverride nowMin).label_id = true)
    (hty : (editAnchor item0 lblOverride type_p descr_p amountOverride
      nowMin).type ≠ "")
    (hdesc : (editAnchor item0 lblOverride type_p descr_p amountOverride
      nowMin).description ≠ "")
    (hamt : (editAnchor item0 lblOverride type_p descr_p amountOverride
      nowMin).amount ≠ 0) :
    edit_recurring_items db labels item_id label_id_p type_p descr_p amount_p
        due_date_p tzdb header nowMin =
      (db.map (fun it =>
        if it.recurrence_id == some rid &&
            PDate.ble item0.due_date it.due_date then
          { it with
            label_id := (editAnchor item0 lblOverride type_p descr_p
              amountOverride nowMin).label_id,
            type := (editAnchor item0 lblOverride type_p descr_p
              amountOverride nowMin).type,
            description := (editAnchor item0 lblOverride type_p descr_p
              amountOverride nowMin).description,
            amount := (editAnchor item0 lblOverride type_p descr_p
              amountOverride nowMin).amount,
            due_date := addMonths new_due_date (it.id - item_id),
            due_status := calculate_due_status
              (addMonths new_due_date (it.id - item_id)) tzOffset nowMin
              (editAnchor item0 lblOverride type_p descr_p amountOverride
                nowMin).type,
            transaction_date := nowMin }
        else it),
       .okMsg "Recurring items updated successfully") :=
  edit_success_eq db labels item_id label_id_p type_p descr_p amount_p
    due_date_p tzdb header nowMin item0 rid lblOverride new_due_date
    amountOverride tzOffset hfind hrid hlbl hdue ham htz hnodup hlid hty
    hdesc hamt

/-- Concrete instantiation of C3: a one-item series edited with a label,
kind, amount and due-date override. -/
theorem edit_updates_exactly_future_items_witness :
    edit_recurring_items
        [⟨1, some "r", "Mensal", some 1, "A Pagar", "Conta", 10,
          ⟨2024, 1, 15⟩, "A PAGAR", 0, some 1⟩]
        [⟨2, "Lazer", false⟩] 1 (some 2) (some "Pago") none (some (some 20))
        (some (some ⟨2024, 1, 20⟩))
        (fun s => if s = "UTC" then some 0 else none) none 0 =
      ([⟨1, some "r", "Mensal", some 1, "A Pagar", "Conta", 10,
          ⟨2024, 1, 15⟩, "A PAGAR", 0, some 1⟩].map (fun it =>
        if it.recurrence_id == some "r" &&
            PDate.ble (⟨2024, 1, 15⟩ : PDate) it.due_date then
          { it with
            label_id := (editAnchor ⟨1, some "r", "Mensal", some 1, "A Pagar",
              "Conta", 10, ⟨2024, 1, 15⟩, "A PAGAR", 0, some 1⟩ (some 2)
              (some "Pago") none (some 20) 0).label_id,
            type := (editAnchor ⟨1, some "r", "Mensal", some 1, "A Pagar",
              "Conta", 10, ⟨2024, 1, 15⟩, "A PAGAR", 0, some 1⟩ (some 2)
              (some "Pago") none (some 20) 0).type,
            description := (editAnchor ⟨1, some "r", "Mensal", some 1,
              "A Pagar", "Conta", 10, ⟨2024, 1, 15⟩, "A PAGAR", 0, some 1⟩
              (some 2) (some "Pago") none (some 20) 0).description,
            amount := (editAnchor ⟨1, some "r", "Mensal", some 1, "A Pagar",
              "Conta", 10, ⟨2024, 1, 15⟩, "A PAGAR", 0, some 1⟩ (some 2)
              (some "Pago") none (some 20) 0).amount,
            due_date := addMonths ⟨2024, 1, 20⟩ (it.id - 1),
            due_status := calculate_due_status
              (addMonths ⟨2024, 1, 20⟩ (it.id - 1)) 0 0
              (editAnchor ⟨1, some "r", "Mensal", some 1, "A Pagar", "Conta",
                10, ⟨2024, 1, 15⟩, "A PAGAR", 0, some 1⟩ (some 2)
                (some "Pago") none (some 20) 0).type,
            transaction_date := 0 }
        else it),
       .okMsg "Recurring items updated successfully") :=
  edit_updates_exactly_future_items
    [⟨1, some "r", "Mensal", some 1, "A Pagar", "Conta", 10, ⟨2024, 1, 15⟩,
      "A PAGAR", 0, some 1⟩]
    [⟨2, "Lazer", false⟩] 1 (some 2) (some "Pago") none (some (some 20))
    (some (some ⟨2024, 1, 20⟩))
    (fun s => if s = "UTC" then some 0 else none) none 0
    ⟨1, some "r", "Mensal", some 1, "A Pagar", "Conta", 10, ⟨2024, 1, 15⟩,
      "A PAGAR", 0, some 1⟩ "r" (some 2) ⟨2024, 1, 20⟩ (some 20) 0
    (by decide) (by decide) (by decide) (by decide) (by decide) (by decide)
    (by decide) (by decide) (by decide) (by decide) (by decide)

/-- C5 (amended): the success path of an edit rewrites exactly the
same-series items whose due date is on or after the anchor's original
due date, setting each one's due date to the new anchor due date plus
(item id - anchor id) calendar months (a day-of-month pattern shift, not
a uniform whole-day delta) and recomputing its due status, while every
same-series item with a strictly earlier due date and every item outside
the series is mapped to itself, completely unchanged in all fields. -/
theorem edit_future_shift_and_frame (db : List Item)
    (labels : List Label) (item_id : Int) (label_id_p : Option Int)
    (type_p descr_p : Option String) (amount_p : Option (Option Rat))
    (due_date_p : Option (Option PDate)) (tzdb : String → Option Int)
    (header : Option String) (nowMin : Int) (item0 : Item) (rid : String)
    (lblOverride : Option Int) (new_due_date : PDate)
    (amountOverride : Option Rat) (tzOffset : Int)
    (hfind : db.find? (fun it => it.id == item_id) = some item0)
    (hrid : item0.recurrence_id = some rid)
    (hlbl : resolveLabel labels label_id_p = some lblOverride)
    (hdue : parseDue due_date_p item0.due_date = some new_due_date)
    (ham : parseAmount amount_p = some amountOverride)
    (htz : get_user_timezone tzdb header = some tzOffset)
    (hnodup : (db.map Item.id).Nodup)
    (hlid : truthyIntOpt (editAnchor item0 lblOverride type_p descr_p
      amountOverride nowMin).label_id = true)
    (hty : (editAnchor item0 lblOverride type_p descr_p amountOverride
      nowMin).type ≠ "")
    (hdesc : (editAnchor item0 lblOverride type_p descr_p amountOverride
      nowMin).description ≠ "")
    (hamt : (editAnchor item0 lblOverride type_p descr_p amountOverride
      nowMin).amount ≠ 0) :
    ∃ updItem : Item → Item,
      edit_recurring_items db labels item_id label_id_p type_p descr_p
          amount_p due_date_p tzdb header nowMin =
        (db.map updItem, .okMsg "Recurring items updated successfully") ∧
      (∀ it : Item, it.recurrence_id = some rid →
        PDate.ble item0.due_date it.due_date = true →
        (updItem it).due_date = addMonths new_due_date (it.id - item_id) ∧
        (updItem it).due_status = calculate_due_status
          (addMonths new_due_date (it.id - item_id)) tzOffset nowMin
          (editAnchor item0 lblOverride type_p descr_p amountOverride
            nowMin).type) ∧
      (∀ it : Item, (it.recurrence_id ≠ some rid ∨
          PDate.blt it.due_date item0.due_date = true) → updItem it = it) := by
  refine ⟨fun it =>
    if it.recurrence_id == some rid &&
        PDate.ble item0.due_date it.due_date then
      { it with
        label_id := (editAnchor item0 lblOverride type_p descr_p
          amountOverride nowMin).label_id,
        type := (editAnchor item0 lblOverride type_p descr_p
          amountOverride nowMin).type,
        description := (editAnchor item0 lblOverride type_p descr_p
          amountOverride nowMin).description,
        amount := (editAnchor item0 lblOverride type_p descr_p
          amountOverride nowMin).amount,
        due_date := addMonths new_due_date (it.id - item_id),
        due_status := calculate_due_status
          (addMonths new_due_date (it.id - item_id)) tzOffset nowMin
          (editAnchor item0 lblOverride type_p descr_p amountOverride
            nowMin).type,
        transaction_date := nowMin }
    else it,
    edit_success_eq db labels item_id label_id_p type_p descr_p amount_p
      due_date_p tzdb header nowMin item0 rid lblOverride new_due_date
      amountOverride tzOffset hfind hrid hlbl hdue ham htz hnodup hlid hty
      hdesc hamt, ?_, ?_⟩
  · intro it h1 h2
    have hcond : (it.recurrence_id == some rid &&
        PDate.ble item0.due_date it.due_date) = true := by
      rw [h1]
      simpa using h2
    simp [hcond]
  · intro it h
    rcases h with h | h
    · have hcond : (it.recurrence_id == some rid &&
          PDate.ble item0.due_date it.due_date) = false := by
        simp [h]
      simp [hcond]
    · simp only [PDate.blt, Bool.not_eq_true'] at h
      have hcond : (it.recurrence_id == some rid &&
          PDate.ble item0.due_date it.due_date) = false := by
        simp [h]
      simp [hcond]

/-- Counterexample to C5 as stated: in the 6-item monthly series created
from 2024-01-31 (due dates Jan 31, Feb 29, Mar 31, Apr 30, May 31,
Jun 30), editing the 3rd item's due date from 2024-03-31 to 2024-03-30
moves the anchor by -1 day but leaves the 4th item's due date at
2024-04-30 (a 0-day shift, because 30 clamps identically), so the later
items are NOT shifted by the same delta as the anchor's change. -/
theorem edit_same_delta_counterexample :
    ((edit_recurring_items
        [⟨1, some "r", "Mensal", some 6, "A Pagar", "C", 10, ⟨2024, 1, 31⟩,
          "", 0, some 1⟩,
         ⟨2, some "r", "Mensal", some 5, "A Pagar", "C", 10, ⟨2024, 2, 29⟩,
          "", 0, some 1⟩,
         ⟨3, some "r", "Mensal", some 4, "A Pagar", "C", 10, ⟨2024, 3, 31⟩,
          "", 0, some 1⟩,
         ⟨4, some "r", "Mensal", some 3, "A Pagar", "C", 10, ⟨2024, 4, 30⟩,
          "", 0, some 1⟩,
         ⟨5, some "r", "Mensal", some 2, "A Pagar", "C", 10, ⟨2024, 5, 31⟩,
          "", 0, some 1⟩,
         ⟨6, some "r", "Mensal", some 1, "A Pagar", "C", 10, ⟨2024, 6, 30⟩,
          "", 0, some 1⟩] [] 3 none none none none
        (some (some ⟨2024, 3, 30⟩))
        (fun s => if s = "UTC" then some 0 else none) none 0).1.map
      (fun it => it.due_date)) =
      [⟨2024, 1, 31⟩, ⟨2024, 2, 29⟩, ⟨2024, 3, 30⟩, ⟨2024, 4, 30⟩,
        ⟨2024, 5, 30⟩, ⟨2024, 6, 30⟩] ∧
    dateToDays ⟨2024, 3, 30⟩ - dateToDays ⟨2024, 3, 31⟩ = -1 ∧
    dateToDays ⟨2024, 4, 30⟩ - dateToDays ⟨2024, 4, 30⟩ = 0 := by
  refine ⟨?_, by decide, by decide⟩
  decide

/-- Concrete instantiation of C5 (amended): editing the 2nd item of a
2-item series. -/
theorem edit_future_shift_and_frame_witness :
    ∃ updItem : Item → Item,
      edit_recurring_items
          [⟨1, some "r", "Mensal", some 2, "A Pagar", "C", 10, ⟨2024, 1, 31⟩,
            "", 0, some 1⟩,
           ⟨2, some "r", "Mensal", some 1, "A Pagar", "C", 10, ⟨2024, 2, 29⟩,
            "", 0, some 1⟩] [] 2 none none none none
          (some (some ⟨2024, 3, 5⟩))
          (fun s => if s = "UTC" then some 0 else none) none 0 =
        ([⟨1, some "r", "Mensal", some 2, "A Pagar", "C", 10, ⟨2024, 1, 31⟩,
            "", 0, some 1⟩,
          ⟨2, some "r", "Mensal", some 1, "A Pagar", "C", 10, ⟨2024, 2, 29⟩,
            "", 0, some 1⟩].map updItem,
         .okMsg "Recurring items updated successfully") ∧
      (∀ it : Item, it.recurrence_id = some "r" →
        PDate.ble (⟨2024, 2, 29⟩ : PDate) it.due_date = true →
        (updItem it).due_date = addMonths ⟨2024, 3, 5⟩ (it.id - 2) ∧
        (updItem it).due_status = calculate_due_status
          (addMonths ⟨2024, 3, 5⟩ (it.id - 2)) 0 0
          (editAnchor ⟨2, some "r", "Mensal", some 1, "A Pagar", "C", 10,
            ⟨2024, 2, 29⟩, "", 0, some 1⟩ none none none none 0).type) ∧
      (∀ it : Item, (it.recurrence_id ≠ some "r" ∨
          PDate.blt it.due_date ⟨2024, 2, 29⟩ = true) → updItem it = it) :=
  edit_future_shift_and_frame
    [⟨1, some "r", "Mensal", some 2, "A Pagar", "C", 10, ⟨2024, 1, 31⟩,
      "", 0, some 1⟩,
     ⟨2, some "r", "Mensal", some 1, "A Pagar", "C", 10, ⟨2024, 2, 29⟩,
      "", 0, some 1⟩] [] 2 none none none none (some (some ⟨2024, 3, 5⟩))
    (fun s => if s = "UTC" then some 0 else none) none 0
    ⟨2, some "r", "Mensal", some 1, "A Pagar", "C", 10, ⟨2024, 2, 29⟩,
      "", 0, some 1⟩ "r" none ⟨2024, 3, 5⟩ none 0
    (by decide) (by decide) (by decide) (by decide) (by decide) (by decide)
    (by decide) (by decide) (by decide) (by decide) (by decide)

/-- The ascending due-date order used by the delete route's
order_by(Item.due_date). -/
def dueLE (a b : Item) : Prop := PDate.ble a.due_date b.due_date = true

instance : DecidableRel dueLE :=
  fun a b => inferInstanceAs (Decidable (PDate.ble a.due_date b.due_date = true))

theorem PDate.ble_total (a b : PDate) :
    PDate.ble a b = true ∨ PDate.ble b a = true := by
  rw [PDate.ble_iff, PDate.ble_iff]
  omega

theorem PDate.ble_trans {a b c : PDate} (h1 : PDate.ble a b = true)
    (h2 : PDate.ble b c = true) : PDate.ble a c = true := by
  rw [PDate.ble_iff] at h1 h2 ⊢
  omega

theorem PDate.ble_antisymm {a b : PDate} (h1 : PDate.ble a b = true)
    (h2 : PDate.ble b a = true) : a = b := by
  rw [PDate.ble_iff] at h1 h2
  cases a
  cases b
  simp only [PDate.mk.injEq]
  simp only at h1 h2
  omega

theorem PDate.blt_of_ble_of_ne {a b : PDate} (h1 : PDate.ble a b = true)
    (h2 : a ≠ b) : PDate.blt a b = true := by
  rw [PDate.blt, Bool.not_eq_true']
  by_contra h
  rw [Bool.not_eq_false] at h
  exact h2 (PDate.ble_antisymm h1 h)

theorem PDate.blt_irrefl (a : PDate) : PDate.blt a a = false := by
  rw [PDate.blt, PDate.ble_refl]
  rfl

instance : IsTotal Item dueLE :=
  ⟨fun a b => PDate.ble_total a.due_date b.due_date⟩

instance : IsTrans Item dueLE :=
  ⟨fun _ _ _ h1 h2 => PDate.ble_trans h1 h2⟩

/-- remove_recurring_items of src/api/routes/recurrence_routes.py.

The anchor is resolved by id; an anchor without recurrence_id is
rejected; every same-series item with a strictly later due date is
deleted; the remaining same-series items (due date <= anchor's), ordered
by ascending due date, get months := len - i + 1 for 1-based position i;
deletions and renumbering are committed together. -/
def removeSurvivors (db : List Item) (rid : String) (due0 : PDate) :
    List Item :=
  db.filter (fun it =>
    !(it.recurrence_id == some rid && PDate.blt due0 it.due_date))

/-- The remaining_items query of the delete route: same-series items with
due date <= the anchor's, ordered by ascending due date. -/
def removeRemaining (db1 : List Item) (rid : String) (due0 : PDate) :
    List Item :=
  List.insertionSort dueLE (db1.filter (fun it =>
    it.recurrence_id == some rid && PDate.ble it.due_date due0))

/-- The months renumbering of the delete route: for 1-based position i in
the ascending remaining list, months := len - i + 1. -/
def removeAssign (remaining : List Item) : List (Int × Int) :=
  remaining.enum.map (fun p =>
    (p.2.id, (remaining.length : Int) - ((p.1 : Int) + 1) + 1))

def remove_recurring_items (db : List Item) (item_id : Int) :
    List Item × Resp :=
  match db.find? (fun it => it.id == item_id) with
  | none => (db, .err "id" "Item not found." "not_found_error" 404)
  | some item0 =>
  match item0.recurrence_id with
  | none => (db, .err "id" "This item is not part of a recurring series."
      "validation_error" 400)
  | some rid =>
  let db1 := removeSurvivors db rid item0.due_date
  let monthsAssign := removeAssign (removeRemaining db1 rid item0.due_date)
  (db1.map (fun it =>
    match monthsAssign.lookup it.id with
    | some m => { it with months := some m }
    | none => it), .okMsg "Future recurring items deleted")

/-- Counterexample to C8 as stated: editing or deleting an existing item
that has no recurrence_id is rejected with HTTP 400 and kind
"validation_error" (the code's "This item is not part of a recurring
series." branch), not with a not-found failure (the code's not-found
responses carry kind "not_found_error" and HTTP 404, which differ). -/
theorem reject_non_series_is_validation_not_notfound :
    edit_recurring_items
        [⟨1, none, "Única", none, "A Pagar", "C", 10, ⟨2024, 1, 15⟩, "", 0,
          some 1⟩] [] 1 none none none none none
        (fun s => if s = "UTC" then some 0 else none) none 0 =
      ([⟨1, none, "Única", none, "A Pagar", "C", 10, ⟨2024, 1, 15⟩, "", 0,
          some 1⟩],
        .err "id" "This item is not part of a recurring series."
          "validation_error" 400) ∧
    remove_recurring_items
        [⟨1, none, "Única", none, "A Pagar", "C", 10, ⟨2024, 1, 15⟩, "", 0,
          some 1⟩] 1 =
      ([⟨1, none, "Única", none, "A Pagar", "C", 10, ⟨2024, 1, 15⟩, "", 0,
          some 1⟩],
        .err "id" "This item is not part of a recurring series."
          "validation_error" 400) ∧
    ("validation_error" ≠ "not_found_error" ∧ (400 : Nat) ≠ 404) := by
  refine ⟨by decide, by decide, by decide, by decide⟩

/-- C8 (amended): for every edit or delete request whose referenced item
exists but carries no recurrence_id, the operation is rejected with the
validation failure (HTTP 400, kind "validation_error", "This item is not
part of a recurring series.") and the store is returned unchanged: no
item is modified or deleted. -/
theorem edit_delete_reject_non_series (db : List Item) (labels : List Label)
    (item_id : Int) (label_id_p : Option Int) (type_p descr_p : Option String)
    (amount_p : Option (Option Rat)) (due_date_p : Option (Option PDate))
    (tzdb : String → Option Int) (header : Option String) (nowMin : Int)
    (item0 : Item)
    (hfind : db.find? (fun it => it.id == item_id) = some item0)
    (hrid : item0.recurrence_id = none) :
    edit_recurring_items db labels item_id label_id_p type_p descr_p amount_p
        due_date_p tzdb header nowMin =
      (db, .err "id" "This item is not part of a recurring series."
        "validation_error" 400) ∧
    remove_recurring_items db item_id =
      (db, .err "id" "This item is not part of a recurring series."
        "validation_error" 400) := by
  constructor
  · unfold edit_recurring_items
    simp only [hfind, hrid]
  · unfold remove_recurring_items
    simp only [hfind, hrid]

/-- Concrete instantiation of C8 (amended). -/
theorem edit_delete_reject_non_series_witness :
    edit_recurring_items
        [⟨7, none, "Única", none, "Pago", "D", 5, ⟨2025, 6, 1⟩, "PAGO", 0,
          some 1⟩] [] 7 none (some "A Pagar") none none none
        (fun s => if s = "UTC" then some 0 else none) none 0 =
      ([⟨7, none, "Única", none, "Pago", "D", 5, ⟨2025, 6, 1⟩, "PAGO", 0,
          some 1⟩],
        .err "id" "This item is not part of a recurring series."
          "validation_error" 400) ∧
    remove_recurring_items
        [⟨7, none, "Única", none, "Pago", "D", 5, ⟨2025, 6, 1⟩, "PAGO", 0,
          some 1⟩] 7 =
      ([⟨7, none, "Única", none, "Pago", "D", 5, ⟨2025, 6, 1⟩, "PAGO", 0,
          some 1⟩],
        .err "id" "This item is not part of a recurring series."
          "validation_error" 400) :=
  edit_delete_reject_non_series
    [⟨7, none, "Única", none, "Pago", "D", 5, ⟨2025, 6, 1⟩, "PAGO", 0,
      some 1⟩] [] 7 none (some "A Pagar") none none none
    (fun s => if s = "UTC" then some 0 else none) none 0
    ⟨7, none, "Única", none, "Pago", "D", 5, ⟨2025, 6, 1⟩, "PAGO", 0, some 1⟩
    (by decide) (by decide)

/-- C10: get_user_timezone always yields a timezone (a missing TimeZone
header defaults to "UTC" and an unknown name falls back to
timezone("UTC"), which pytz always resolves - hypothesis h), so it is
never falsy, and hence the "Invalid time zone" 400 branches guarded by
`if not user_timezone` in the recurring create and edit operations are
unreachable: no input makes them return that error response. -/
theorem get_user_timezone_never_falsy (tzdb : String → Option Int)
    (header : Option String) (u : Int) (h : tzdb "UTC" = some u)
    (db : List Item) (labels : List Label) (label_id_p : Option Int)
    (type_p descr_p : Option String) (amount_p : Option (Option Rat))
    (due_date_p : Option (Option PDate)) (months_p : Option (Option Int))
    (rid : String) (nextId : Int) (nowMin : Int) (item_id : Int)
    (elabel_id_p : Option Int) (etype_p edescr_p : Option String)
    (eamount_p : Option (Option Rat)) (edue_date_p : Option (Option PDate)) :
    (get_user_timezone tzdb header).isSome = true ∧
    (add_recurring_item db labels label_id_p type_p descr_p amount_p
        due_date_p months_p rid nextId tzdb header nowMin).2 ≠
      Resp.err "TimeZone" "Invalid time zone" "validation_error" 400 ∧
    (edit_recurring_items db labels item_id elabel_id_p etype_p edescr_p
        eamount_p edue_date_p tzdb header nowMin).2 ≠
      Resp.err "TimeZone" "Invalid time zone" "validation_error" 400 := by
  have hsome : (get_user_timezone tzdb header).isSome = true := by
    unfold get_user_timezone
    cases hc : tzdb (header.getD "UTC") with
    | none => rw [h]; rfl
    | some t => rfl
  obtain ⟨t, ht⟩ := Option.isSome_iff_exists.mp hsome
  refine ⟨hsome, ?_, ?_⟩
  · unfold add_recurring_item
    repeat' split <;> intro hc <;> (try repeat' split at hc) <;>
      (try simp_all) <;> (try split at hc) <;> simp_all
  · unfold edit_recurring_items
    repeat' split <;> intro hc <;> (try repeat' split at hc) <;> simp_all

/-- Concrete instantiation of C10. -/
theorem get_user_timezone_never_falsy_witness :
    (get_user_timezone (fun s => if s = "UTC" then some 0 else none)
      (some "Not/AZone")).isSome = true ∧
    (add_recurring_item [] [] none none none none none none "r" 1
        (fun s => if s = "UTC" then some 0 else none) (some "Not/AZone")
        0).2 ≠
      Resp.err "TimeZone" "Invalid time zone" "validation_error" 400 ∧
    (edit_recurring_items [] [] 1 none none none none none
        (fun s => if s = "UTC" then some 0 else none) (some "Not/AZone")
        0).2 ≠
      Resp.err "TimeZone" "Invalid time zone" "validation_error" 400 :=
  get_user_timezone_never_falsy (fun s => if s = "UTC" then some 0 else none)
    (some "Not/AZone") 0 (by decide) [] [] none none none none none none "r"
    1 0 1 none none none none none

/-- An HTTP response of the label routes. -/
inductive LabelResp where
  | created (l : Label)
  | err (loc msg ty : String) (status : Nat)
  | serverError
deriving DecidableEq, Repr

/-- Python str.lower() as used on the is_default form value: lowercase
each character (ASCII suffices for the accepted values). -/
def pyLower (s : String) : String := ⟨s.data.map Char.toLower⟩

/-- add_label of src/api/routes/label_routes.py.

The is_default form value defaults to "false" when absent and must lower
to "true" or "false"; then a label with exactly the same name (string
equality, case-sensitive) must not already exist; otherwise the new label
is added and committed.  A missing name slips through the duplicate check
and violates the NOT NULL constraint at commit (serverError). -/
def add_label (labels : List Label) (nextId : Int) (name_p : Option String)
    (is_default_p : Option String) : List Label × LabelResp :=
  let is_default_value := pyLower (is_default_p.getD "false")
  if is_default_value = "true" ∨ is_default_value = "false" then
    match name_p with
    | none => (labels, .serverError)
    | some name =>
      match labels.find? (fun l => l.name == name) with
      | some _ => (labels, .err "name"
          ("Label with name '" ++ name ++ "' already exists.")
          "validation_error" 400)
      | none =>
        let new_label : Label :=
          { id := nextId, name := name, is_default := is_default_value = "true" }
        (labels ++ [new_label], .created new_label)
  else
    (labels, .err "is_default"
      "Invalid value for is_default. Expected 'true', 'false'."
      "validation_error" 400)

/-- C9: creating a label whose name exactly equals (case-sensitively) the
name of an existing label fails with the duplicate-name error (the spec's
DuplicateName kind: the "Label with name ... already exists." 400
response) and commits nothing: the label list is returned unchanged. -/
theorem add_label_duplicate_name (labels : List Label) (nextId : Int)
    (name : String) (is_default_p : Option String) (lbl : Label)
    (hdup : labels.find? (fun l => l.name == name) = some lbl)
    (hdef : pyLower (is_default_p.getD "false") = "true" ∨
      pyLower (is_default_p.getD "false") = "false") :
    add_label labels nextId (some name) is_default_p =
      (labels, .err "name"
        ("Label with name '" ++ name ++ "' already exists.")
        "validation_error" 400) := by
  unfold add_label
  rw [if_pos hdef]
  simp only [hdup]

/-- Concrete instantiation of C9: duplicate name "Casa". -/
theorem add_label_duplicate_name_witness :
    add_label [⟨1, "Casa", false⟩] 2 (some "Casa") none =
      ([⟨1, "Casa", false⟩], .err "name"
        ("Label with name '" ++ "Casa" ++ "' already exists.")
        "validation_error" 400) :=
  add_label_duplicate_name [⟨1, "Casa", false⟩] 2 "Casa" none
    ⟨1, "Casa", false⟩ (by decide) (by decide)

theorem lookup_eq_none_of_not_mem_keys {β : Type} (k : Int)
    (kvs : List (Int × β)) (h : k ∉ kvs.map Prod.fst) :
    kvs.lookup k = none := by
  induction kvs with
  | nil => rfl
  | cons a t ih =>
    obtain ⟨k', v⟩ := a
    simp only [List.map_cons, List.mem_cons] at h
    push_neg at h
    obtain ⟨h1, h2⟩ := h
    rw [List.lookup_cons]
    have hb : (k == k') = false := by simpa using h1
    rw [hb]
    exact ih h2

theorem lookup_enumFrom_map {β : Type} (g : Nat → β) :
    ∀ (l : List Item) (k : Nat), (l.map Item.id).Nodup →
    ∀ (j : Nat) (hj : j < l.length),
    ((List.enumFrom k l).map (fun p => (p.2.id, g p.1))).lookup
      (l.get ⟨j, hj⟩).id = some (g (k + j)) := by
  intro l
  induction l with
  | nil =>
    intro k _ j hj
    exact absurd hj (by simp)
  | cons a t ih =>
    intro k hn j hj
    rw [List.enumFrom_cons]
    simp only [List.map_cons] at hn ⊢
    rw [List.nodup_cons] at hn
    obtain ⟨hna, hnt⟩ := hn
    cases j with
    | zero =>
      rw [show ((a :: t).get ⟨0, hj⟩) = a from rfl, List.lookup_cons]
      simp
    | succ j =>
      have hj' : j < t.length := by simpa using hj
      rw [show ((a :: t).get ⟨j + 1, hj⟩) = t.get ⟨j, hj'⟩ from rfl,
        List.lookup_cons]
      have hne : (t.get ⟨j, hj'⟩).id ≠ a.id := by
        intro hcontra
        exact hna (hcontra ▸ List.mem_map_of_mem Item.id (t.get_mem j hj'))
      have hb : ((t.get ⟨j, hj'⟩).id == a.id) = false := by simpa using hne
      rw [hb, ih (k + 1) hnt j hj']
      exact congrArg (fun i => some (g i)) (by omega)

theorem removeAssign_lookup (l : List Item) (hn : (l.map Item.id).Nodup)
    (j : Nat) (hj : j < l.length) :
    (removeAssign l).lookup (l.get ⟨j, hj⟩).id =
      some ((l.length : Int) - ((j : Int) + 1) + 1) := by
  unfold removeAssign
  have h := lookup_enumFrom_map
    (fun i => (l.length : Int) - ((i : Int) + 1) + 1) l 0 hn j hj
  simpa using h

theorem removeAssign_keys (l : List Item) :
    (removeAssign l).map Prod.fst = l.map Item.id := by
  unfold removeAssign
  rw [List.map_map]
  rw [show (Prod.fst ∘ fun p : Nat × Item =>
    (p.2.id, (l.length : Int) - ((p.1 : Int) + 1) + 1)) =
    (Item.id ∘ Prod.snd) from rfl]
  rw [← List.map_map, List.enum_map_snd]

theorem countP_blt_of_sorted :
    ∀ (l : List Item), List.Sorted dueLE l →
    l.Pairwise (fun a b => a.due_date ≠ b.due_date) →
    ∀ (j : Nat) (hj : j < l.length),
    l.countP (fun x => PDate.blt x.due_date (l.get ⟨j, hj⟩).due_date) = j := by
  intro l
  induction l with
  | nil =>
    intro _ _ j hj
    exact absurd hj (by simp)
  | cons a t ih =>
    intro hs hp j hj
    rw [List.sorted_cons] at hs
    obtain ⟨ha, ht⟩ := hs
    rw [List.pairwise_cons] at hp
    obtain ⟨hpa, hpt⟩ := hp
    cases j with
    | zero =>
      rw [show ((a :: t).get ⟨0, hj⟩) = a from rfl, List.countP_cons]
      have h1 : PDate.blt a.due_date a.due_date = false := PDate.blt_irrefl _
      have h2 : t.countP (fun x => PDate.blt x.due_date a.due_date) = 0 := by
        rw [List.countP_eq_zero]
        intro x hx
        have hax : PDate.ble a.due_date x.due_date = true := ha x hx
        simp only [PDate.blt, hax]
        simp
      rw [h1, h2]
      simp
    | succ j =>
      have hj' : j < t.length := by simpa using hj
      rw [show ((a :: t).get ⟨j + 1, hj⟩) = t.get ⟨j, hj'⟩ from rfl,
        List.countP_cons]
      have htj : t.get ⟨j, hj'⟩ ∈ t := t.get_mem j hj'
      have hba : PDate.blt a.due_date (t.get ⟨j, hj'⟩).due_date = true :=
        PDate.blt_of_ble_of_ne (ha _ htj) (hpa _ htj)
      rw [ih ht hpt j hj', hba]
      simp

theorem filterMap_if_eq_map_filter {α β : Type} (p : α → Bool) (g : α → β) :
    ∀ l : List α,
    l.filterMap (fun a => if p a then none else some (g a)) =
      (l.filter (fun a => !p a)).map g := by
  intro l
  induction l with
  | nil => rfl
  | cons a t ih =>
    rw [List.filterMap_cons, List.filter_cons]
    cases hpa : p a with
    | true => simpa [hpa] using ih
    | false => simpa [hpa] using ih

/-- C4: deleting an item that belongs to a series removes exactly the
same-series items whose due date is strictly greater than the anchor's
(the anchor survives), and every surviving same-series item gets
months (sequenceRemaining) = (count of surviving series items) -
(its 1-based rank in ascending due-date order) + 1, the rank being one
plus the number of surviving series items with a strictly smaller due
date, so the earliest gets the highest count and the latest (the anchor)
gets 1; every item outside the series is untouched, and deletions and
renumbering land in the same returned store (one commit).  Hypotheses:
store ids are unique and same-series due dates are pairwise distinct (the
data model's "total order by dueDate" invariant). -/
theorem remove_deletes_future_and_renumbers (db : List Item) (item_id : Int)
    (item0 : Item) (rid : String)
    (hfind : db.find? (fun it => it.id == item_id) = some item0)
    (hrid : item0.recurrence_id = some rid)
    (hnodup : (db.map Item.id).Nodup)
    (hdistinct : db.Pairwise (fun a b => a.recurrence_id = some rid →
      b.recurrence_id = some rid → a.due_date ≠ b.due_date)) :
    remove_recurring_items db item_id =
      (db.filterMap (fun it =>
        if it.recurrence_id == some rid then
          if PDate.blt item0.due_date it.due_date then none
          else some { it with months := some (
            ((db.countP (fun x => x.recurrence_id == some rid &&
              PDate.ble x.due_date item0.due_date) : Int)) -
            (((db.countP (fun x => x.recurrence_id == some rid &&
              PDate.ble x.due_date item0.due_date &&
              PDate.blt x.due_date it.due_date) : Int)) + 1) + 1) }
        else some it),
       .okMsg "Future recurring items deleted") := by
  have hrem : (removeSurvivors db rid item0.due_date).filter
      (fun it => it.recurrence_id == some rid &&
        PDate.ble it.due_date item0.due_date) =
      db.filter (fun it => it.recurrence_id == some rid &&
        PDate.ble it.due_date item0.due_date) := by
    unfold removeSurvivors
    rw [List.filter_filter]
    refine List.filter_congr ?_
    intro x _
    cases h1 : (x.recurrence_id == some rid) with
    | false => simp [h1]
    | true =>
      cases h2 : PDate.ble x.due_date item0.due_date with
      | false => simp [h1, h2]
      | true => simp [h1, h2, PDate.blt]
  have hsorted_eq : removeRemaining (removeSurvivors db rid item0.due_date)
      rid item0.due_date =
      List.insertionSort dueLE (db.filter (fun it =>
        it.recurrence_id == some rid &&
        PDate.ble it.due_date item0.due_date)) := by
    unfold removeRemaining
    rw [hrem]
  have hperm : (List.insertionSort dueLE (db.filter (fun it =>
      it.recurrence_id == some rid &&
      PDate.ble it.due_date item0.due_date))).Perm
      (db.filter (fun it => it.recurrence_id == some rid &&
        PDate.ble it.due_date item0.due_date)) :=
    List.perm_insertionSort dueLE _
  have hsorted : List.Sorted dueLE (List.insertionSort dueLE (db.filter
      (fun it => it.recurrence_id == some rid &&
        PDate.ble it.due_date item0.due_date))) :=
    List.sorted_insertionSort dueLE _
  have hremsub : (db.filter (fun it => it.recurrence_id == some rid &&
      PDate.ble it.due_date item0.due_date)).Sublist db :=
    List.filter_sublist db
  have hremser : ∀ x ∈ db.filter (fun it => it.recurrence_id == some rid &&
      PDate.ble it.due_date item0.due_date),
      x.recurrence_id = some rid := by
    intro x hx
    have h := List.of_mem_filter hx
    simp only [Bool.and_eq_true, beq_iff_eq] at h
    exact h.1
  have hpairrem : (db.filter (fun it => it.recurrence_id == some rid &&
      PDate.ble it.due_date item0.due_date)).Pairwise
      (fun a b => a.due_date ≠ b.due_date) := by
    have h1 := List.Pairwise.sublist hremsub hdistinct
    exact List.Pairwise.imp_of_mem
      (fun ha hb hr => hr (hremser _ ha) (hremser _ hb)) h1
  have hpairsorted : (List.insertionSort dueLE (db.filter (fun it =>
      it.recurrence_id == some rid &&
      PDate.ble it.due_date item0.due_date))).Pairwise
      (fun a b => a.due_date ≠ b.due_date) :=
    (hperm.pairwise_iff (fun h => h.symm)).mpr hpairrem
  have hidsrem : ((db.filter (fun it => it.recurrence_id == some rid &&
      PDate.ble it.due_date item0.due_date)).map Item.id).Nodup :=
    (hremsub.map Item.id).nodup hnodup
  have hidssorted : ((List.insertionSort dueLE (db.filter (fun it =>
      it.recurrence_id == some rid &&
      PDate.ble it.due_date item0.due_date))).map Item.id).Nodup :=
    ((hperm.map Item.id).nodup_iff).mpr hidsrem
  unfold remove_recurring_items
  simp only [hfind, hrid]
  rw [hsorted_eq]
  congr 1
  have hFG : ∀ it ∈ db,
      (if it.recurrence_id == some rid then
        if PDate.blt item0.due_date it.due_date then none
        else some { it with months := some (
          ((db.countP (fun x => x.recurrence_id == some rid &&
            PDate.ble x.due_date item0.due_date) : Int)) -
          (((db.countP (fun x => x.recurrence_id == some rid &&
            PDate.ble x.due_date item0.due_date &&
            PDate.blt x.due_date it.due_date) : Int)) + 1) + 1) }
      else some it) =
      (if (it.recurrence_id == some rid &&
          PDate.blt item0.due_date it.due_date) then none
       else some (if it.recurrence_id == some rid then
        { it with months := some (
          ((db.countP (fun x => x.recurrence_id == some rid &&
            PDate.ble x.due_date item0.due_date) : Int)) -
          (((db.countP (fun x => x.recurrence_id == some rid &&
            PDate.ble x.due_date item0.due_date &&
            PDate.blt x.due_date it.due_date) : Int)) + 1) + 1) }
        else it)) := by
    intro it _
    cases h1 : (it.recurrence_id == some rid) with
    | false => simp [h1]
    | true =>
      cases h2 : PDate.blt item0.due_date it.due_date with
      | false => simp [h1, h2]
      | true => simp [h1, h2]
  rw [List.filterMap_congr hFG, filterMap_if_eq_map_filter]
  show List.map _ (db.filter fun it =>
    !(it.recurrence_id == some rid &&
      PDate.blt item0.due_date it.due_date)) = _
  refine List.map_congr_left ?_
  intro it hit
  obtain ⟨hitdb, hnotdel⟩ := List.mem_filter.mp hit
  by_cases hser : it.recurrence_id = some rid
  · have hserb : (it.recurrence_id == some rid) = true := by simpa using hser
    have h1 : PDate.blt item0.due_date it.due_date = false := by
      have h := hnotdel
      rw [Bool.not_eq_true'] at h
      rw [hserb, Bool.true_and] at h
      exact h
    have hble : PDate.ble it.due_date item0.due_date = true := by
      have h := h1
      rw [PDate.blt] at h
      simpa using h
    have hitrem : it ∈ db.filter (fun x => x.recurrence_id == some rid &&
        PDate.ble x.due_date item0.due_date) :=
      List.mem_filter.mpr ⟨hitdb, by simp [hserb, hble]⟩
    have hitsorted : it ∈ List.insertionSort dueLE (db.filter (fun x =>
        x.recurrence_id == some rid &&
        PDate.ble x.due_date item0.due_date)) :=
      hperm.mem_iff.mpr hitrem
    obtain ⟨⟨j, hj⟩, hget⟩ := List.get_of_mem hitsorted
    have hlook := removeAssign_lookup _ hidssorted j hj
    rw [hget] at hlook
    have hcount := countP_blt_of_sorted _ hsorted hpairsorted j hj
    rw [hget] at hcount
    have hcount2 : (List.insertionSort dueLE (db.filter (fun x =>
        x.recurrence_id == some rid &&
        PDate.ble x.due_date item0.due_date))).countP
        (fun x => PDate.blt x.due_date it.due_date) =
        db.countP (fun x => x.recurrence_id == some rid &&
          PDate.ble x.due_date item0.due_date &&
          PDate.blt x.due_date it.due_date) := by
      rw [hperm.countP_eq, List.countP_filter]
      exact List.countP_congr (fun x _ => by
        constructor
        · intro h
          simp only [Bool.and_eq_true] at h ⊢
          exact ⟨h.2, h.1⟩
        · intro h
          simp only [Bool.and_eq_true] at h ⊢
          exact ⟨h.2, h.1⟩)
    have hn : (List.insertionSort dueLE (db.filter (fun x =>
        x.recurrence_id == some rid &&
        PDate.ble x.due_date item0.due_date))).length =
        db.countP (fun x => x.recurrence_id == some rid &&
          PDate.ble x.due_date item0.due_date) := by
      rw [hperm.length_eq]
      exact (List.countP_eq_length_filter _ _).symm
    have hv : ((List.insertionSort dueLE (db.filter (fun x =>
        x.recurrence_id == some rid &&
        PDate.ble x.due_date item0.due_date))).length : Int) -
        ((j : Int) + 1) + 1 =
        ((db.countP (fun x => x.recurrence_id == some rid &&
          PDate.ble x.due_date item0.due_date) : Int)) -
        (((db.countP (fun x => x.recurrence_id == some rid &&
          PDate.ble x.due_date item0.due_date &&
          PDate.blt x.due_date it.due_date) : Int)) + 1) + 1 := by
      rw [← hcount2, ← hn, hcount]
    simp only [hlook, hserb, if_true, hv]
  · have hserb : (it.recurrence_id == some rid) = false := by simpa using hser
    have hkeys : it.id ∉ (removeAssign (List.insertionSort dueLE (db.filter
        (fun x => x.recurrence_id == some rid &&
          PDate.ble x.due_date item0.due_date)))).map Prod.fst := by
      rw [removeAssign_keys]
      intro hcon
      obtain ⟨y, hy, hyid⟩ := List.mem_map.mp hcon
      have hyrem := hperm.mem_iff.mp hy
      have hyser := hremser y hyrem
      have hydb := hremsub.mem hyrem
      have : y = it := List.inj_on_of_nodup_map hnodup hydb hitdb hyid
      rw [this] at hyser
      exact hser hyser
    have hlooknone := lookup_eq_none_of_not_mem_keys it.id _ hkeys
    simp only [hlooknone, hserb]
    simp

/-- Concrete instantiation of C4 at the spec's example: deleting the 2nd
item (by date) of a 5-item series removes items 3-5 and renumbers the two
survivors so the 1st has months = 2 and the anchor has months = 1. -/
theorem remove_deletes_future_and_renumbers_witness :
    remove_recurring_items
        [⟨1, some "r", "Mensal", some 5, "A Pagar", "C", 10, ⟨2024, 1, 15⟩,
          "", 0, some 1⟩,
         ⟨2, some "r", "Mensal", some 4, "A Pagar", "C", 10, ⟨2024, 2, 15⟩,
          "", 0, some 1⟩,
         ⟨3, some "r", "Mensal", some 3, "A Pagar", "C", 10, ⟨2024, 3, 15⟩,
          "", 0, some 1⟩,
         ⟨4, some "r", "Mensal", some 2, "A Pagar", "C", 10, ⟨2024, 4, 15⟩,
          "", 0, some 1⟩,
         ⟨5, some "r", "Mensal", some 1, "A Pagar", "C", 10, ⟨2024, 5, 15⟩,
          "", 0, some 1⟩] 2 =
      ([⟨1, some "r", "Mensal", some 5, "A Pagar", "C", 10, ⟨2024, 1, 15⟩,
          "", 0, some 1⟩,
        ⟨2, some "r", "Mensal", some 4, "A Pagar", "C", 10, ⟨2024, 2, 15⟩,
          "", 0, some 1⟩,
        ⟨3, some "r", "Mensal", some 3, "A Pagar", "C", 10, ⟨2024, 3, 15⟩,
          "", 0, some 1⟩,
        ⟨4, some "r", "Mensal", some 2, "A Pagar", "C", 10, ⟨2024, 4, 15⟩,
          "", 0, some 1⟩,
        ⟨5, some "r", "Mensal", some 1, "A Pagar", "C", 10, ⟨2024, 5, 15⟩,
          "", 0, some 1⟩].filterMap (fun it =>
        if it.recurrence_id == some "r" then
          if PDate.blt (⟨2024, 2, 15⟩ : PDate) it.due_date then none
          else some { it with months := some (
            ((([⟨1, some "r", "Mensal", some 5, "A Pagar", "C", 10,
                ⟨2024, 1, 15⟩, "", 0, some 1⟩,
               ⟨2, some "r", "Mensal", some 4, "A Pagar", "C", 10,
                ⟨2024, 2, 15⟩, "", 0, some 1⟩,
               ⟨3, some "r", "Mensal", some 3, "A Pagar", "C", 10,
                ⟨2024, 3, 15⟩, "", 0, some 1⟩,
               ⟨4, some "r", "Mensal", some 2, "A Pagar", "C", 10,
                ⟨2024, 4, 15⟩, "", 0, some 1⟩,
               ⟨5, some "r", "Mensal", some 1, "A Pagar", "C", 10,
                ⟨2024, 5, 15⟩, "", 0, some 1⟩] : List Item).countP
              (fun x => x.recurrence_id == some "r" &&
                PDate.ble x.due_date ⟨2024, 2, 15⟩) : Int)) -
            (((([⟨1, some "r", "Mensal", some 5, "A Pagar", "C", 10,
                ⟨2024, 1, 15⟩, "", 0, some 1⟩,
               ⟨2, some "r", "Mensal", some 4, "A Pagar", "C", 10,
                ⟨2024, 2, 15⟩, "", 0, some 1⟩,
               ⟨3, some "r", "Mensal", some 3, "A Pagar", "C", 10,
                ⟨2024, 3, 15⟩, "", 0, some 1⟩,
               ⟨4, some "r", "Mensal", some 2, "A Pagar", "C", 10,
                ⟨2024, 4, 15⟩, "", 0, some 1⟩,
               ⟨5, some "r", "Mensal", some 1, "A Pagar", "C", 10,
                ⟨2024, 5, 15⟩, "", 0, some 1⟩] : List Item).countP
              (fun x => x.recurrence_id == some "r" &&
                PDate.ble x.due_date ⟨2024, 2, 15⟩ &&
                PDate.blt x.due_date it.due_date) : Int)) + 1) + 1) }
        else some it),
       .okMsg "Future recurring items deleted") :=
  remove_deletes_future_and_renumbers
    [⟨1, some "r", "Mensal", some 5, "A Pagar", "C", 10, ⟨2024, 1, 15⟩,
      "", 0, some 1⟩,
     ⟨2, some "r", "Mensal", some 4, "A Pagar", "C", 10, ⟨2024, 2, 15⟩,
      "", 0, some 1⟩,
     ⟨3, some "r", "Mensal", some 3, "A Pagar", "C", 10, ⟨2024, 3, 15⟩,
      "", 0, some 1⟩,
     ⟨4, some "r", "Mensal", some 2, "A Pagar", "C", 10, ⟨2024, 4, 15⟩,
      "", 0, some 1⟩,
     ⟨5, some "r", "Mensal", some 1, "A Pagar", "C", 10, ⟨2024, 5, 15⟩,
      "", 0, some 1⟩] 2
    ⟨2, some "r", "Mensal", some 4, "A Pagar", "C", 10, ⟨2024, 2, 15⟩,
      "", 0, some 1⟩ "r" (by decide) (by decide) (by decide) (by decide)
